import Mathlib

set_option maxHeartbeats 1000000
set_option autoImplicit false

/-!
Shallow embedding of `server.py` (LLM form auto-fill service).

Pure string manipulation (the selector-convention resolution, label text
assembly, attribute defaulting, truncation) is embedded directly.  The
effectful collaborators — Playwright page/frame calls, BeautifulSoup node
accessors, the OpenAI call, `json.loads`, `re.search` — are embedded as
oracles: records of functions that state, for each possible call, whether
it raises and what it returns.  Every effectful step the handler performs
is additionally recorded in an explicit trace of actions/effects, so that
ordering, fallback and "no retry" properties can be stated about the
trace.
-/

namespace AutofillServer

/-! ### Selector-convention resolution (server.py lines 190-196)

Python `str` is modelled as `List Char`.  `startsWithL pre s` embeds
`s.startswith(pre)`; `splitFirstAfter sep s` embeds `s.split(sep, 1)[1]`
for strings that contain `sep` (it is only ever applied under a
`startswith` guard that guarantees a colon is present, exactly as in the
source). -/

/-- Embedding of Python `s.startswith(pre)` on character lists. -/
def startsWithL : List Char → List Char → Bool
  | [], _ => true
  | _ :: _, [] => false
  | p :: ps, c :: cs => if p = c then startsWithL ps cs else false

/-- Embedding of Python `s.split(sep, 1)[1]`: everything after the first
occurrence of `sep`.  (Total extension: returns `[]` when `sep` is absent;
the source only evaluates this under a guard that guarantees presence.) -/
def splitFirstAfter (sep : Char) : List Char → List Char
  | [] => []
  | c :: cs => if c = sep then cs else splitFirstAfter sep cs

/-- server.py lines 190-196: normalize the selector convention.
`id:X` becomes `#X`, `name:X` becomes `[name="X"]`, anything else is used
verbatim as a CSS selector. -/
def resolveSelectorL (selector : List Char) : List Char :=
  if startsWithL ("id:".toList) selector then
    '#' :: splitFirstAfter ':' selector
  else if startsWithL ("name:".toList) selector then
    "[name=\"".toList ++ splitFirstAfter ':' selector ++ "\"]".toList
  else selector

/-- String-level wrapper of `resolveSelectorL`. -/
def resolveSelector (selector : String) : String :=
  String.mk (resolveSelectorL selector.data)

/-! ### DOM extraction (server.py lines 28-74)

For a BeautifulSoup node, `get_text(sep, strip=True)` joins the stripped,
non-whitespace string segments of the node with `sep`.  A node is
modelled by its list of stripped segments (`List String`); bs4 guarantees
every segment is non-empty (whitespace-only segments are dropped), which
enters theorems as an explicit `stripsWF` hypothesis. -/

/-- Embedding of bs4 `node.get_text(strip=True)` (separator `""`): the
concatenation of the stripped segments. -/
def getTextC : List String → String
  | [] => ""
  | s :: rest => s ++ getTextC rest

/-- Embedding of bs4 `node.get_text(" ", strip=True)`: the stripped
segments joined by a single space. -/
def getTextSep : List String → String
  | [] => ""
  | [s] => s
  | s :: rest => s ++ " " ++ getTextSep rest

/-- Well-formedness of a stripped-segment list, as bs4 `strip=True`
produces it: every surviving segment is non-empty. -/
def stripsWF (l : List String) : Prop := ∀ s ∈ l, s ≠ ""

/-- Oracle for the parsed document: `findLabelFor idv` embeds
`soup.find("label", for=idv)` — the stripped text segments of the first
matching label element, or `none` when no label has that `for`
attribute. -/
structure Soup where
  findLabelFor : String → Option (List String)

/-- The `previous_sibling` node of a control (server.py lines 54-59).
`getTextStrips` is `some segs` when `prev.get_text` succeeds and `none`
when it raises; `rawStripped` embeds `str(prev).strip()`, used exactly in
the raising case. -/
structure PrevNode where
  getTextStrips : Option (List String)
  rawStripped : String

/-- One node returned by `soup.select("input, textarea, select,
[role=combobox]")`.  `attrs` embeds `dict(control.attrs)` as an
association list; `parentLabel` embeds `control.find_parent("label")`
(the stripped segments of the ancestor label); `prevSibling` is `some` exactly
when `control.previous_sibling` is truthy (not `None` and not an empty
text node); `outerHtml` embeds `str(control)`; `boom` is the abstract
per-node failure flag: true when some accessor used while building this
entry of this control raises (the `except Exception: continue` case,
server.py lines 72-73). -/
structure ControlNode where
  tag : String
  attrs : List (String × String)
  parentLabel : Option (List String)
  prevSibling : Option PrevNode
  outerHtml : String
  boom : Bool

/-- The emitted descriptor (server.py lines 61-70). -/
structure ControlInfo where
  tag : String
  type : String
  name : String
  id : String
  placeholder : String
  aria_label : String
  label : String
  outer_html : String
deriving DecidableEq

/-- Embedding of Python `attrs.get(k, "")` over the association list. -/
def getAttr (attrs : List (String × String)) (k : String) : String :=
  match attrs.lookup k with
  | some v => v
  | none => ""

/-- server.py lines 40-44: candidate label via `label[for=control.id]`.
Empty string when the control has no `id`, no such label exists, or the
stripped text of that label is empty (the `if lab and lab.get_text(strip=True)`
guard); otherwise the space-joined text of that label. -/
def tryLabelFor (soup : Soup) (c : ControlNode) : String :=
  match c.attrs.lookup "id" with
  | some idv =>
    match soup.findLabelFor idv with
    | some lab => if getTextC lab = "" then "" else getTextSep lab
    | none => ""
  | none => ""

/-- server.py lines 46-50: candidate label via an ancestor `label`
element wrapping the control. -/
def tryParentLabel (c : ControlNode) : String :=
  match c.parentLabel with
  | some pl => if getTextC pl = "" then "" else getTextSep pl
  | none => ""

/-- server.py lines 52-59: candidate label via the previous sibling:
its text content, or its raw stripped string form when text extraction
raises; empty when there is no (truthy) previous sibling. -/
def tryPrevSibling (c : ControlNode) : String :=
  match c.prevSibling with
  | some prev =>
    match prev.getTextStrips with
    | some st => getTextSep st
    | none => prev.rawStripped
  | none => ""

/-- server.py lines 38-59: the sequential label derivation.  `label_text`
starts empty, each later stage runs only while it is still empty. -/
def deriveLabel (soup : Soup) (c : ControlNode) : String :=
  if tryLabelFor soup c = "" then
    if tryParentLabel c = "" then tryPrevSibling c
    else tryParentLabel c
  else tryLabelFor soup c

/-- server.py lines 61-70: build the descriptor dict for one control. -/
def buildControlInfo (soup : Soup) (c : ControlNode) : ControlInfo :=
  { tag := c.tag
    type := getAttr c.attrs "type"
    name := getAttr c.attrs "name"
    id := getAttr c.attrs "id"
    placeholder := getAttr c.attrs "placeholder"
    aria_label := getAttr c.attrs "aria-label"
    label := deriveLabel soup c
    outer_html := c.outerHtml.take 800 }

/-- server.py lines 35-73: the per-control body of the loop, with the
`try/except Exception: continue` embedded as `Option`. -/
def extractControl (soup : Soup) (c : ControlNode) : Option ControlInfo :=
  if c.boom then none else some (buildControlInfo soup c)

/-- server.py lines 28-74: `extract_structured_dom`.  BeautifulSoup
parsing itself is external; its result is the `soup` oracle together with
the `controls` list (the `soup.select(...)` matches, in document
order). -/
def extract_structured_dom (soup : Soup) (controls : List ControlNode) : List ControlInfo :=
  controls.filterMap (extractControl soup)

/-! ### Mapping applier (server.py lines 184-242)

The live page and its frames are oracles.  `Page.frames` embeds
`page.frames` (Playwright: the main frame first, then sub-frames, in
document order).  Each oracle function takes the resolved CSS selector. -/

/-- One frame of the live page.  `found sel` is true when
`frame.query_selector(sel)` returns a (truthy) element handle;
`raises sel` when that call raises; `evalOk sel` when
`frame.eval_on_selector(sel, ...)` succeeds. -/
structure Frame where
  found : String → Bool
  raises : String → Bool
  evalOk : String → Bool

/-- Where the element handle was found: on the main page query, or via
the frame at the given index of `page.frames`. -/
inductive Loc where
  | page : Loc
  | frame : Nat → Loc
deriving DecidableEq

/-- The live page oracle.  `queryFound`/`queryRaises` describe
`page.query_selector`; `evalOk` describes `page.eval_on_selector`;
`typeOk sel loc` states whether `el.type(...)` succeeds for the element
handle obtained from selector `sel` at location `loc`. -/
structure Page where
  queryFound : String → Bool
  queryRaises : String → Bool
  evalOk : String → Bool
  frames : List Frame
  typeOk : String → Loc → Bool

/-- The element-returning page query succeeds and matches
(server.py lines 199-202 leave `el = None` both when the call raises and
when it returns no element). -/
def pageMatches (p : Page) (sel : String) : Bool :=
  !p.queryRaises sel && p.queryFound sel

/-- A frame iteration step keeps the element only when the query neither
raises nor comes back empty (server.py lines 206-212). -/
def frameMatches (f : Frame) (sel : String) : Bool :=
  !f.raises sel && f.found sel

/-- One recorded browser interaction of the applier. -/
inductive Action where
  | queryPage (sel : String)
  | queryFrame (idx : Nat) (sel : String)
  | scrollIntoView (sel : String)
  | clearField (sel : String)
  | typeChars (sel : String) (value : String) (delay : Nat)
  | evalPage (sel : String) (value : String)
  | evalFrame (idx : Nat) (sel : String) (value : String)
deriving DecidableEq

/-- Index of the first element of the list satisfying the predicate. -/
def firstMatchIdx {α : Type} (p : α → Bool) : List α → Option Nat
  | [] => none
  | a :: l => if p a then some 0 else (firstMatchIdx p l).map (· + 1)

/-- server.py lines 205-212: scan the frames in order with the same
selector; a raising or empty query continues to the next frame; stop at
the first frame with a match.  Returns the recorded queries and the index
of the matching frame, if any.  `i` is the index of the first frame of
`fs` within `page.frames`. -/
def frameLookup (sel : String) : List Frame → Nat → List Action × Option Nat
  | [], _ => ([], none)
  | f :: rest, i =>
    if frameMatches f sel then ([Action.queryFrame i sel], some i)
    else (Action.queryFrame i sel :: (frameLookup sel rest (i + 1)).1,
          (frameLookup sel rest (i + 1)).2)

/-- server.py lines 198-212: query the main page first; only when that
yields no element, fall back to the frame scan. -/
def lookupElement (p : Page) (sel : String) : List Action × Option Loc :=
  if pageMatches p sel then ([Action.queryPage sel], some Loc.page)
  else (Action.queryPage sel :: (frameLookup sel p.frames 0).1,
        (frameLookup sel p.frames 0).2.map Loc.frame)

/-- server.py lines 232-237: the frame-level JS value-assignment loop —
attempt each frame in order, stop at the first frame whose
`eval_on_selector` succeeds. -/
def frameEvalActions : List Frame → String → String → Nat → List Action
  | [], _, _, _ => []
  | f :: rest, sel, value, i =>
    Action.evalFrame i sel value ::
      (if f.evalOk sel then [] else frameEvalActions rest sel value (i + 1))

/-- server.py lines 214-237: the write fallback chain on a found element:
best-effort scroll (215-218) and clear (219-223), then character typing
with `delay=10` (225); if typing raises, JS value assignment on the page
(229); if that raises too, the per-frame JS assignment loop (232-237). -/
def writeActions (p : Page) (sel value : String) (loc : Loc) : List Action :=
  Action.scrollIntoView sel :: Action.clearField sel ::
  Action.typeChars sel value 10 ::
  (if p.typeOk sel loc then []
   else Action.evalPage sel value ::
     (if p.evalOk sel then [] else frameEvalActions p.frames sel value 0))

/-- A `mapped_results` entry (server.py line 238). -/
structure MappedField where
  selector : String
  applied_selector : String
  value : String
deriving DecidableEq

/-- An `errors` entry (server.py lines 240, 242). -/
structure ErrorField where
  selector : String
  error : String
deriving DecidableEq

/-- server.py lines 188-242: the body of the per-entry loop — resolve the
convention, look the element up, and either run the write chain and
record a success, or record the not-found failure. -/
def applyEntry (p : Page) (selector value : String) :
    List Action × Sum MappedField ErrorField :=
  match (lookupElement p (resolveSelector selector)).2 with
  | some loc =>
      ((lookupElement p (resolveSelector selector)).1 ++
         writeActions p (resolveSelector selector) value loc,
       Sum.inl ⟨selector, resolveSelector selector, value⟩)
  | none =>
      ((lookupElement p (resolveSelector selector)).1,
       Sum.inr ⟨selector, "Element not found"⟩)

/-- server.py lines 185-242: fold the applier over the mapping entries in
order, accumulating the action trace, `mapped_results` and `errors`. -/
def autofillApplyT (p : Page) :
    List (String × String) → List Action × List MappedField × List ErrorField
  | [] => ([], [], [])
  | (s, v) :: rest =>
    ((applyEntry p s v).1 ++ (autofillApplyT p rest).1,
     match (applyEntry p s v).2 with
     | Sum.inl m => (m :: (autofillApplyT p rest).2.1, (autofillApplyT p rest).2.2)
     | Sum.inr e => ((autofillApplyT p rest).2.1, e :: (autofillApplyT p rest).2.2))

/-- Number of frames the lookup scan touches: up to and including the
first matching frame, or all of them when none matches. -/
def lookupTried (fs : List Frame) (sel : String) : Nat :=
  match firstMatchIdx (fun f => frameMatches f sel) fs with
  | some k => k + 1
  | none => fs.length

/-- Number of frames the JS-assignment fallback touches: up to and
including the first frame whose eval succeeds, or all of them. -/
def evalTried (fs : List Frame) (sel : String) : Nat :=
  match firstMatchIdx (fun f => f.evalOk sel) fs with
  | some k => k + 1
  | none => fs.length

/-! ### The request handler (server.py lines 109-260) -/

/-- The parsed JSON request body: `req.get("url")` and
`req.get("details", "")` (the handler applies the `""` default). -/
structure Request where
  url : Option String
  details : Option String

/-- Outcome oracle for `page.goto(url, timeout=40000)`
(server.py lines 123-130): success, `PWTimeout`, or another exception
with its message. -/
inductive NavOutcome where
  | ok : NavOutcome
  | timeout : NavOutcome
  | failure : String → NavOutcome
deriving DecidableEq

/-- Outcome oracle for the chat-completion call
(server.py lines 155-165): the stripped model text, or an exception
message. -/
inductive LlmOutcome where
  | ok : String → LlmOutcome
  | failure : String → LlmOutcome
deriving DecidableEq

/-- A parsed model output object: `ai_json.get("mapping", {})` and
`ai_json.get("notes", "")` are read with defaults by the handler, so both
fields are optional here.  Mapping iteration order is the JSON object
order (Python dicts preserve insertion order). -/
structure AiJson where
  mapping : Option (List (String × String))
  notes : Option String

/-- The JSON bodies the handler can serialize. -/
inductive RespBody where
  | errMsg (error : String)
  | errDetails (error details : String)
  | errDetail (error detail : String)
  | errRaw (error raw : String)
  | success (status message url title : String)
      (mapped_fields : List MappedField) (errors : List ErrorField)
      (notes : String) (llm_raw : String)
deriving DecidableEq

/-- Externally visible effect of the handler, in order of occurrence:
browser launch (server.py lines 118-121), navigation (124), the
best-effort lazy-load scroll (135-139), DOM extraction (144), the model
call (156), and each browser interaction of the applier. -/
inductive Effect where
  | launchBrowser
  | navigate (url : String)
  | scrollNudge
  | extractDom (controls : List ControlInfo)
  | llmCall
  | domAction (a : Action)
deriving DecidableEq

/-- The per-request oracle for every external call the handler makes:
navigation outcome, page title, parsed document and its selected
controls, model outcome, `json.loads` (`parse s = some j` iff `s` parses,
applied both to the raw text and to the extracted block), the
`re.search(r"(\x7b.*\x7d)", s, re.S)` block extraction, and the live
page. -/
structure World where
  nav : NavOutcome
  title : String
  soup : Soup
  controls : List ControlNode
  llm : LlmOutcome
  parse : String → Option AiJson
  braceBlock : String → Option String
  page : Page

/-- server.py lines 167-179: parse the model text; on failure extract the
first-to-last-brace block and parse that; the two distinct error bodies
both echo the raw model text. -/
def parseChain (w : World) (aiText : String) : Except RespBody AiJson :=
  match w.parse aiText with
  | some j => Except.ok j
  | none =>
    match w.braceBlock aiText with
    | some block =>
      match w.parse block with
      | some j => Except.ok j
      | none => Except.error (RespBody.errRaw "Could not parse LLM JSON output" aiText)
    | none => Except.error (RespBody.errRaw "LLM did not return JSON" aiText)

/-- The fixed success message (server.py line 251). -/
def autofillMessage : String :=
  "AI filled the form. Please review the visible browser and click Submit manually."

/-- server.py lines 109-260: the `/autofill` handler as a function from
the parsed request and the oracle world to the HTTP status, response body
and the ordered trace of external effects. -/
def autofill (req : Request) (w : World) : (Nat × RespBody) × List Effect :=
  match req.url with
  | none => ((400, RespBody.errMsg "url and details are mandatory"), [])
  | some url =>
    if url = "" ∨ req.details.getD "" = "" then
      ((400, RespBody.errMsg "url and details are mandatory"), [])
    else
      match w.nav with
      | NavOutcome.failure msg =>
          ((500, RespBody.errDetails "Failed to navigate to URL" msg),
           [Effect.launchBrowser, Effect.navigate url])
      | _ =>
        match w.llm with
        | LlmOutcome.failure msg =>
            ((500, RespBody.errDetail "LLM request failed" msg),
             [Effect.launchBrowser, Effect.navigate url, Effect.scrollNudge,
              Effect.extractDom (extract_structured_dom w.soup w.controls),
              Effect.llmCall])
        | LlmOutcome.ok aiText =>
          match parseChain w aiText with
          | Except.error r =>
              ((500, r),
               [Effect.launchBrowser, Effect.navigate url, Effect.scrollNudge,
                Effect.extractDom (extract_structured_dom w.soup w.controls),
                Effect.llmCall])
          | Except.ok j =>
              ((200, RespBody.success "filled" autofillMessage url w.title
                  (autofillApplyT w.page (j.mapping.getD [])).2.1
                  (autofillApplyT w.page (j.mapping.getD [])).2.2
                  (j.notes.getD "") aiText),
               [Effect.launchBrowser, Effect.navigate url, Effect.scrollNudge,
                Effect.extractDom (extract_structured_dom w.soup w.controls),
                Effect.llmCall] ++
               (autofillApplyT w.page (j.mapping.getD [])).1.map Effect.domAction)

/-! ### Concrete fixtures used by the evaluation witnesses -/

/-- A document with no label elements at all. -/
def soupFx : Soup := ⟨fun _ => none⟩

/-- A well-behaved extracted control node. -/
def nodeOk : ControlNode :=
  { tag := "input"
    attrs := [("type", "text"), ("name", "email")]
    parentLabel := none
    prevSibling := none
    outerHtml := "<input>"
    boom := false }

/-- The same node, but with a raising accessor during extraction. -/
def nodeBad : ControlNode := { nodeOk with boom := true }

/-- A page whose main-page query finds the element for every selector but
where typing, page-level JS assignment and every frame-level JS
assignment all fail. -/
def pageAllFail : Page :=
  { queryFound := fun _ => true
    queryRaises := fun _ => false
    evalOk := fun _ => false
    frames := []
    typeOk := fun _ _ => false }

/-- A frame whose queries raise. -/
def frameRaising : Frame := ⟨fun _ => false, fun _ => true, fun _ => false⟩

/-- A frame with no match and failing eval. -/
def frameMiss : Frame := ⟨fun _ => false, fun _ => false, fun _ => false⟩

/-- A frame that matches every selector. -/
def frameHit : Frame := ⟨fun _ => true, fun _ => false, fun _ => false⟩

/-- A frame whose eval succeeds. -/
def frameYesEval : Frame := ⟨fun _ => false, fun _ => false, fun _ => true⟩

/-- A page where the element is only found via the third frame. -/
def pageFrameOnly : Page :=
  { queryFound := fun _ => false
    queryRaises := fun _ => false
    evalOk := fun _ => false
    frames := [frameRaising, frameMiss, frameHit]
    typeOk := fun _ _ => false }

/-- A page where no element is found anywhere. -/
def pageNothing : Page :=
  { queryFound := fun _ => false
    queryRaises := fun _ => false
    evalOk := fun _ => false
    frames := [frameRaising, frameMiss]
    typeOk := fun _ _ => false }

/-- A page where typing and the page-level eval fail and the JS
assignment only succeeds on the second frame. -/
def pageEvalChain : Page :=
  { queryFound := fun _ => true
    queryRaises := fun _ => false
    evalOk := fun _ => false
    frames := [frameMiss, frameYesEval]
    typeOk := fun _ _ => false }

/-- A page where everything succeeds immediately. -/
def pageFx : Page :=
  { queryFound := fun _ => true
    queryRaises := fun _ => false
    evalOk := fun _ => true
    frames := []
    typeOk := fun _ _ => true }

/-- A parsed model output with a two-entry mapping. -/
def aiJsonFx : AiJson := ⟨some [("id:a", "1"), ("q", "2")], some "n"⟩

/-- A world on the all-success path. -/
def worldFx : World :=
  { nav := NavOutcome.ok
    title := "T"
    soup := soupFx
    controls := [nodeOk]
    llm := LlmOutcome.ok "raw"
    parse := fun _ => some aiJsonFx
    braceBlock := fun _ => none
    page := pageFx }

/-- A valid request body. -/
def reqFx : Request := ⟨some "http://example.com", some "Name: Jane"⟩

/-- A request body with the `details` field absent. -/
def reqNoDetails : Request := ⟨some "http://example.com", none⟩

/-- A document with one label element, for the control with id `email`. -/
def soupLabeled : Soup :=
  ⟨fun idv => if idv = "email" then some ["Email", "address"] else none⟩

/-- A control with an `id`, a wrapping label and a previous sibling. -/
def nodeWithId : ControlNode :=
  { tag := "input"
    attrs := [("id", "email")]
    parentLabel := some ["Wrap"]
    prevSibling := some ⟨some ["Sib"], "raw"⟩
    outerHtml := "<input id=email>"
    boom := false }

/-! ### Helper lemmas -/

theorem lookupTried_cons_false (f : Frame) (rest : List Frame) (sel : String)
    (hb : frameMatches f sel = false) :
    lookupTried (f :: rest) sel = lookupTried rest sel + 1 := by
  unfold lookupTried
  rw [show firstMatchIdx (fun g => frameMatches g sel) (f :: rest)
      = (firstMatchIdx (fun g => frameMatches g sel) rest).map (· + 1) by
    simp [firstMatchIdx, hb]]
  cases firstMatchIdx (fun g => frameMatches g sel) rest <;> simp

theorem evalTried_cons_false (f : Frame) (rest : List Frame) (sel : String)
    (hb : f.evalOk sel = false) :
    evalTried (f :: rest) sel = evalTried rest sel + 1 := by
  unfold evalTried
  rw [show firstMatchIdx (fun g => g.evalOk sel) (f :: rest)
      = (firstMatchIdx (fun g => g.evalOk sel) rest).map (· + 1) by
    simp [firstMatchIdx, hb]]
  cases firstMatchIdx (fun g => g.evalOk sel) rest <;> simp

theorem frameLookup_snd (sel : String) (fs : List Frame) (i : Nat) :
    (frameLookup sel fs i).2 =
      (firstMatchIdx (fun f => frameMatches f sel) fs).map (fun k => k + i) := by
  induction fs generalizing i with
  | nil => rfl
  | cons f rest ih =>
    cases hb : frameMatches f sel with
    | true => simp [frameLookup, firstMatchIdx, hb]
    | false =>
      simp only [frameLookup, firstMatchIdx, hb, Bool.false_eq_true, if_false,
        ih (i + 1), Option.map_map]
      cases firstMatchIdx (fun f => frameMatches f sel) rest with
      | none => rfl
      | some k =>
        simp
        try omega

theorem frameLookup_fst (sel : String) (fs : List Frame) (i : Nat) :
    (frameLookup sel fs i).1 =
      (List.range (lookupTried fs sel)).map
        (fun j => Action.queryFrame (i + j) sel) := by
  induction fs generalizing i with
  | nil => rfl
  | cons f rest ih =>
    cases hb : frameMatches f sel with
    | true =>
      have ht : lookupTried (f :: rest) sel = 1 := by
        simp [lookupTried, firstMatchIdx, hb]
      have hl : frameLookup sel (f :: rest) i = ([Action.queryFrame i sel], some i) := by
        simp [frameLookup, hb]
      rw [ht, hl]
      rfl
    | false =>
      rw [lookupTried_cons_false f rest sel hb, List.range_succ_eq_map]
      simp only [frameLookup, hb, Bool.false_eq_true, if_false, ih (i + 1),
        List.map_cons, List.map_map]
      have hf : ((fun j => Action.queryFrame (i + j) sel) ∘ Nat.succ)
          = fun j => Action.queryFrame (i + 1 + j) sel := by
        funext j
        simp only [Function.comp_apply]
        congr 1
        omega
      rw [hf]
      simp

theorem frameEvalActions_eq (fs : List Frame) (sel value : String) (i : Nat) :
    frameEvalActions fs sel value i =
      (List.range (evalTried fs sel)).map
        (fun j => Action.evalFrame (i + j) sel value) := by
  induction fs generalizing i with
  | nil => rfl
  | cons f rest ih =>
    cases hb : f.evalOk sel with
    | true =>
      have ht : evalTried (f :: rest) sel = 1 := by
        simp [evalTried, firstMatchIdx, hb]
      have hl : frameEvalActions (f :: rest) sel value i = [Action.evalFrame i sel value] := by
        simp [frameEvalActions, hb]
      rw [ht, hl]
      rfl
    | false =>
      rw [evalTried_cons_false f rest sel hb, List.range_succ_eq_map]
      simp only [frameEvalActions, hb, Bool.false_eq_true, if_false, ih (i + 1),
        List.map_cons, List.map_map]
      have hf : ((fun j => Action.evalFrame (i + j) sel value) ∘ Nat.succ)
          = fun j => Action.evalFrame (i + 1 + j) sel value := by
        funext j
        simp only [Function.comp_apply]
        congr 1
        omega
      rw [hf]
      simp

theorem eq_empty_of_length_zero (s : String) (h : s.length = 0) : s = "" := by
  cases s with
  | mk l =>
    cases l with
    | nil => rfl
    | cons c cs => simp [String.length] at h

theorem append_ne_empty_left (s t : String) (h : s ≠ "") : s ++ t ≠ "" := by
  intro hc
  apply h
  apply eq_empty_of_length_zero
  have hz : (s ++ t).length = 0 := by rw [hc]; rfl
  rw [String.length_append] at hz
  omega

theorem getTextC_ne_empty (l : List String) (hwf : stripsWF l) (hne : l ≠ []) :
    getTextC l ≠ "" := by
  cases l with
  | nil => exact absurd rfl hne
  | cons s rest =>
    have hs : s ≠ "" := hwf s (List.mem_cons_self s rest)
    exact append_ne_empty_left s (getTextC rest) hs

theorem getTextSep_ne_empty (l : List String) (hwf : stripsWF l) (hne : l ≠ []) :
    getTextSep l ≠ "" := by
  cases l with
  | nil => exact absurd rfl hne
  | cons s rest =>
    have hs : s ≠ "" := hwf s (List.mem_cons_self s rest)
    cases rest with
    | nil => exact hs
    | cons r t =>
      exact append_ne_empty_left (s ++ " ") (getTextSep (r :: t))
        (append_ne_empty_left s " " hs)

theorem extract_ok_map (soup : Soup) (l : List ControlNode)
    (h : ∀ c ∈ l, c.boom = false) :
    extract_structured_dom soup l = l.map (buildControlInfo soup) := by
  induction l with
  | nil => rfl
  | cons c rest ih =>
    have hc : c.boom = false := h c (List.mem_cons_self c rest)
    have hr : extract_structured_dom soup rest = rest.map (buildControlInfo soup) :=
      ih (fun x hx => h x (List.mem_cons_of_mem c hx))
    simp only [extract_structured_dom, List.filterMap_cons, extractControl, hc,
      Bool.false_eq_true, if_false, List.map_cons] at hr ⊢
    rw [hr]

/-! ### Claims -/

/-- Claim C1: selector-convention resolution is a pure, total function of
the raw selector string: a selector starting with `id:` resolves to `#`
followed by everything after the first colon, a selector starting with
`name:` resolves to `[name="X"]` with `X` everything after the first
colon, and any other string is used verbatim as the CSS selector. -/
theorem C1_selector_resolution (restId restName other : List Char)
    (hid : startsWithL ("id:".toList) other = false)
    (hname : startsWithL ("name:".toList) other = false) :
    resolveSelectorL ("id:".toList ++ restId) = '#' :: restId ∧
    resolveSelectorL ("name:".toList ++ restName) =
      "[name=\"".toList ++ restName ++ "\"]".toList ∧
    resolveSelectorL other = other ∧
    resolveSelector (String.mk ("id:".toList ++ restId)) = String.mk ('#' :: restId) := by
  refine ⟨rfl, rfl, ?_, rfl⟩
  simp only [resolveSelectorL, hid, hname, Bool.false_eq_true, if_false]

/-- Witness for C1 at concrete selectors. -/
theorem C1_selector_resolution_witness :
    resolveSelectorL ("id:".toList ++ "email".toList) = '#' :: "email".toList ∧
    resolveSelectorL ("name:".toList ++ "user".toList) =
      "[name=\"".toList ++ "user".toList ++ "\"]".toList ∧
    resolveSelectorL ("div.form".toList) = "div.form".toList ∧
    resolveSelector (String.mk ("id:".toList ++ "email".toList)) =
      String.mk ('#' :: "email".toList) :=
  C1_selector_resolution ("email".toList) ("user".toList) ("div.form".toList)
    (by decide) (by decide)

/-- Claim C4: extraction is total over the page; a per-control extraction
failure only skips that control: a page with `N` matched controls where
exactly one raises during extraction yields exactly `N - 1` descriptors,
in document order. -/
theorem C4_extraction_skips_bad_control (soup : Soup)
    (pre post : List ControlNode) (bad : ControlNode)
    (hbad : bad.boom = true)
    (hpre : ∀ c ∈ pre, c.boom = false) (hpost : ∀ c ∈ post, c.boom = false) :
    extract_structured_dom soup (pre ++ bad :: post) =
      pre.map (buildControlInfo soup) ++ post.map (buildControlInfo soup) ∧
    (extract_structured_dom soup (pre ++ bad :: post)).length =
      (pre ++ bad :: post).length - 1 := by
  have hb : extractControl soup bad = none := by simp [extractControl, hbad]
  have e1 := extract_ok_map soup pre hpre
  have e2 := extract_ok_map soup post hpost
  have h1 : extract_structured_dom soup (pre ++ bad :: post) =
      pre.map (buildControlInfo soup) ++ post.map (buildControlInfo soup) := by
    unfold extract_structured_dom at e1 e2 ⊢
    rw [List.filterMap_append, List.filterMap_cons, hb, e1, e2]
  refine ⟨h1, ?_⟩
  rw [h1]
  simp only [List.length_append, List.length_map, List.length_cons]
  omega

/-- Witness for C4: three controls, the middle one raising, yield the two
good descriptors in order. -/
theorem C4_extraction_skips_bad_control_witness :
    extract_structured_dom soupFx ([nodeOk] ++ nodeBad :: [nodeOk]) =
      [nodeOk].map (buildControlInfo soupFx) ++ [nodeOk].map (buildControlInfo soupFx) ∧
    (extract_structured_dom soupFx ([nodeOk] ++ nodeBad :: [nodeOk])).length =
      ([nodeOk] ++ nodeBad :: [nodeOk]).length - 1 :=
  C4_extraction_skips_bad_control soupFx [nodeOk] [nodeOk] nodeBad rfl
    (by intro c hc; rw [List.mem_singleton.mp hc]; rfl)
    (by intro c hc; rw [List.mem_singleton.mp hc]; rfl)

/-- Claim C2: for every mapping with K entries the applier emits exactly
K outcomes split between `mapped_fields` and `errors` — each entry lands
in exactly one of the two lists and none is dropped — and the final
success response reports both lists. -/
theorem C2_every_entry_reported (p : Page) (mapping : List (String × String))
    (req : Request) (w : World) (url aiText : String) (j : AiJson)
    (hurl : req.url = some url) (hu : url ≠ "") (hd : req.details.getD "" ≠ "")
    (hnav : ∀ m, w.nav ≠ NavOutcome.failure m)
    (hllm : w.llm = LlmOutcome.ok aiText)
    (hparse : parseChain w aiText = Except.ok j) :
    (autofillApplyT p mapping).2.1.length + (autofillApplyT p mapping).2.2.length
      = mapping.length ∧
    (autofill req w).1 = (200, RespBody.success "filled" autofillMessage url w.title
        (autofillApplyT w.page (j.mapping.getD [])).2.1
        (autofillApplyT w.page (j.mapping.getD [])).2.2
        (j.notes.getD "") aiText) := by
  constructor
  · induction mapping with
    | nil => rfl
    | cons e rest ih =>
      obtain ⟨s, v⟩ := e
      cases h : (applyEntry p s v).2 with
      | inl m =>
        simp only [autofillApplyT, h, List.length_cons]
        omega
      | inr e2 =>
        simp only [autofillApplyT, h, List.length_cons]
        omega
  · unfold autofill
    rw [hurl]
    dsimp only
    rw [if_neg (not_or.mpr ⟨hu, hd⟩)]
    cases hn : w.nav with
    | failure m => exact absurd hn (hnav m)
    | ok =>
      rw [hllm]
      dsimp only
      rw [hparse]
    | timeout =>
      rw [hllm]
      dsimp only
      rw [hparse]

/-- Witness for C2: a two-entry mapping on the all-success world. -/
theorem C2_every_entry_reported_witness :
    (autofillApplyT pageFx [("id:a", "1"), ("q", "2")]).2.1.length +
        (autofillApplyT pageFx [("id:a", "1"), ("q", "2")]).2.2.length =
      ([("id:a", "1"), ("q", "2")] : List (String × String)).length ∧
    (autofill reqFx worldFx).1 = (200, RespBody.success "filled" autofillMessage
        "http://example.com" worldFx.title
        (autofillApplyT worldFx.page (aiJsonFx.mapping.getD [])).2.1
        (autofillApplyT worldFx.page (aiJsonFx.mapping.getD [])).2.2
        (aiJsonFx.notes.getD "") "raw") :=
  C2_every_entry_reported pageFx [("id:a", "1"), ("q", "2")] reqFx worldFx
    "http://example.com" "raw" aiJsonFx rfl (by decide) (by decide)
    (by intro m h; simp [worldFx] at h) rfl rfl

/-- Claim C3: an entry whose element is found anywhere is recorded in
`mapped_fields` as selector, applied selector and value even when typing,
page-level JS assignment and JS assignment in every frame all fail; it is
never added to `errors`. -/
theorem C3_found_entry_always_success (p : Page) (selector value : String) (loc : Loc)
    (hfound : (lookupElement p (resolveSelector selector)).2 = some loc)
    (_htype : p.typeOk (resolveSelector selector) loc = false)
    (_hpage : p.evalOk (resolveSelector selector) = false)
    (_hframes : ∀ f ∈ p.frames, f.evalOk (resolveSelector selector) = false) :
    (applyEntry p selector value).2 =
      Sum.inl ⟨selector, resolveSelector selector, value⟩ ∧
    ∀ rest, (autofillApplyT p ((selector, value) :: rest)).2.1 =
        ⟨selector, resolveSelector selector, value⟩ :: (autofillApplyT p rest).2.1 ∧
      (autofillApplyT p ((selector, value) :: rest)).2.2 =
        (autofillApplyT p rest).2.2 := by
  have h1 : (applyEntry p selector value).2 =
      Sum.inl ⟨selector, resolveSelector selector, value⟩ := by
    unfold applyEntry
    rw [hfound]
  refine ⟨h1, fun rest => ⟨?_, ?_⟩⟩ <;> simp only [autofillApplyT, h1]

/-- Witness for C3: element found on the page, every write fails, the
entry is still a success and errors stay empty. -/
theorem C3_found_entry_always_success_witness :
    (applyEntry pageAllFail "id:email" "jane").2 =
      Sum.inl ⟨"id:email", resolveSelector "id:email", "jane"⟩ ∧
    ((autofillApplyT pageAllFail [("id:email", "jane")]).2.1 =
        ⟨"id:email", resolveSelector "id:email", "jane"⟩ ::
          (autofillApplyT pageAllFail []).2.1 ∧
      (autofillApplyT pageAllFail [("id:email", "jane")]).2.2 =
        (autofillApplyT pageAllFail []).2.2) :=
  ⟨(C3_found_entry_always_success pageAllFail "id:email" "jane" Loc.page rfl rfl rfl
      (by intro f hf; simp [pageAllFail] at hf)).1,
   (C3_found_entry_always_success pageAllFail "id:email" "jane" Loc.page rfl rfl rfl
      (by intro f hf; simp [pageAllFail] at hf)).2 []⟩

/-- Claim C6: lookup queries the resolved selector on the main page
first; only with no match there does it scan all frames in order with the
same selector, stopping at the first frame with a match, each earlier
frame queried exactly once (no retry); when nothing matches anywhere, a
not-found failure for the entry is recorded and processing continues with
the remaining entries. -/
theorem C6_lookup_order_and_not_found (p : Page) (selector value : String)
    (rest : List (String × String)) :
    (pageMatches p (resolveSelector selector) = true →
      lookupElement p (resolveSelector selector) =
        ([Action.queryPage (resolveSelector selector)], some Loc.page)) ∧
    (pageMatches p (resolveSelector selector) = false →
      (lookupElement p (resolveSelector selector)).2 =
        (firstMatchIdx (fun f => frameMatches f (resolveSelector selector))
          p.frames).map Loc.frame ∧
      (lookupElement p (resolveSelector selector)).1 =
        Action.queryPage (resolveSelector selector) ::
          (List.range (lookupTried p.frames (resolveSelector selector))).map
            (fun j => Action.queryFrame j (resolveSelector selector))) ∧
    ((lookupElement p (resolveSelector selector)).2 = none →
      (applyEntry p selector value).2 = Sum.inr ⟨selector, "Element not found"⟩ ∧
      (autofillApplyT p ((selector, value) :: rest)).2.2 =
        ⟨selector, "Element not found"⟩ :: (autofillApplyT p rest).2.2 ∧
      (autofillApplyT p ((selector, value) :: rest)).2.1 =
        (autofillApplyT p rest).2.1) := by
  refine ⟨fun hm => ?_, fun hm => ⟨?_, ?_⟩, fun hnone => ?_⟩
  · unfold lookupElement
    rw [hm]
    rfl
  · unfold lookupElement
    rw [hm]
    simp only [Bool.false_eq_true, if_false]
    rw [frameLookup_snd]
    rw [Option.map_map]
    rcases firstMatchIdx (fun f => frameMatches f (resolveSelector selector)) p.frames
      with _ | k
    · rfl
    · simp
  · unfold lookupElement
    rw [hm]
    simp only [Bool.false_eq_true, if_false]
    rw [frameLookup_fst]
    simp
  · have h1 : (applyEntry p selector value).2 =
        Sum.inr ⟨selector, "Element not found"⟩ := by
      unfold applyEntry
      rw [hnone]
    exact ⟨h1, by simp only [autofillApplyT, h1], by simp only [autofillApplyT, h1]⟩

/-- Witness for C6: the frame scan stops at the third frame (a raising
frame and an empty frame are passed over), and a selector matching
nothing yields the not-found error while later entries still run. -/
theorem C6_lookup_order_and_not_found_witness :
    ((lookupElement pageFrameOnly (resolveSelector "id:x")).2 =
        (firstMatchIdx (fun f => frameMatches f (resolveSelector "id:x"))
          pageFrameOnly.frames).map Loc.frame ∧
      (lookupElement pageFrameOnly (resolveSelector "id:x")).1 =
        Action.queryPage (resolveSelector "id:x") ::
          (List.range (lookupTried pageFrameOnly.frames (resolveSelector "id:x"))).map
            (fun j => Action.queryFrame j (resolveSelector "id:x"))) ∧
    ((applyEntry pageNothing "id:x" "v").2 =
        Sum.inr ⟨"id:x", "Element not found"⟩ ∧
      (autofillApplyT pageNothing [("id:x", "v"), ("name:y", "w")]).2.2 =
        ⟨"id:x", "Element not found"⟩ ::
          (autofillApplyT pageNothing [("name:y", "w")]).2.2 ∧
      (autofillApplyT pageNothing [("id:x", "v"), ("name:y", "w")]).2.1 =
        (autofillApplyT pageNothing [("name:y", "w")]).2.1) :=
  ⟨(C6_lookup_order_and_not_found pageFrameOnly "id:x" "v" []).2.1 rfl,
   (C6_lookup_order_and_not_found pageNothing "id:x" "v" [("name:y", "w")]).2.2 rfl⟩

/-- Claim C7: writing the value of a found element is an ordered fallback
chain stopping at the first success: character typing with a 10ms
per-character delay first; on failure, JS value assignment on the page;
on failure again, the same assignment against each frame in order up to
the first succeeding frame. -/
theorem C7_write_fallback_chain (p : Page) (selector value : String) (loc : Loc)
    (hfound : (lookupElement p (resolveSelector selector)).2 = some loc) :
    (applyEntry p selector value).1 =
      (lookupElement p (resolveSelector selector)).1 ++
        writeActions p (resolveSelector selector) value loc ∧
    (p.typeOk (resolveSelector selector) loc = true →
      writeActions p (resolveSelector selector) value loc =
        [Action.scrollIntoView (resolveSelector selector),
         Action.clearField (resolveSelector selector),
         Action.typeChars (resolveSelector selector) value 10]) ∧
    (p.typeOk (resolveSelector selector) loc = false →
      p.evalOk (resolveSelector selector) = true →
      writeActions p (resolveSelector selector) value loc =
        [Action.scrollIntoView (resolveSelector selector),
         Action.clearField (resolveSelector selector),
         Action.typeChars (resolveSelector selector) value 10,
         Action.evalPage (resolveSelector selector) value]) ∧
    (p.typeOk (resolveSelector selector) loc = false →
      p.evalOk (resolveSelector selector) = false →
      writeActions p (resolveSelector selector) value loc =
        [Action.scrollIntoView (resolveSelector selector),
         Action.clearField (resolveSelector selector),
         Action.typeChars (resolveSelector selector) value 10,
         Action.evalPage (resolveSelector selector) value] ++
          (List.range (evalTried p.frames (resolveSelector selector))).map
            (fun j => Action.evalFrame j (resolveSelector selector) value)) := by
  refine ⟨?_, fun ht => ?_, fun ht he => ?_, fun ht he => ?_⟩
  · unfold applyEntry
    rw [hfound]
  · simp [writeActions, ht]
  · simp [writeActions, ht, he]
  · simp only [writeActions, ht, he, Bool.false_eq_true, if_false]
    rw [frameEvalActions_eq]
    simp

/-- Witness for C7: typing and the page eval fail; the frame assignments
are attempted in order and stop at the second frame, where eval
succeeds. -/
theorem C7_write_fallback_chain_witness :
    (applyEntry pageEvalChain "name:q" "v").1 =
      (lookupElement pageEvalChain (resolveSelector "name:q")).1 ++
        writeActions pageEvalChain (resolveSelector "name:q") "v" Loc.page ∧
    writeActions pageEvalChain (resolveSelector "name:q") "v" Loc.page =
      [Action.scrollIntoView (resolveSelector "name:q"),
       Action.clearField (resolveSelector "name:q"),
       Action.typeChars (resolveSelector "name:q") "v" 10,
       Action.evalPage (resolveSelector "name:q") "v"] ++
        (List.range (evalTried pageEvalChain.frames (resolveSelector "name:q"))).map
          (fun j => Action.evalFrame j (resolveSelector "name:q") "v") :=
  ⟨(C7_write_fallback_chain pageEvalChain "name:q" "v" Loc.page rfl).1,
   (C7_write_fallback_chain pageEvalChain "name:q" "v" Loc.page rfl).2.2.2 rfl rfl⟩

/-- Claim C5: the derived label text of an extracted control tries, in
order, until one yields non-empty text: (a) a label element whose `for`
attribute equals the id of the control; (b) an ancestor label wrapping the
control; (c) the text content of the previous sibling, or its raw stripped
string form when text extraction raises; the label defaults to the empty
string when nothing yields non-empty text. -/
theorem C5_label_derivation (soup : Soup) (c : ControlNode) (idv : String)
    (lab pl st : List String) (prev : PrevNode) :
    (buildControlInfo soup c).label = deriveLabel soup c ∧
    (c.attrs.lookup "id" = some idv → soup.findLabelFor idv = some lab →
      stripsWF lab → lab ≠ [] →
      deriveLabel soup c = getTextSep lab ∧ getTextSep lab ≠ "") ∧
    (tryLabelFor soup c = "" → c.parentLabel = some pl →
      stripsWF pl → pl ≠ [] →
      deriveLabel soup c = getTextSep pl ∧ getTextSep pl ≠ "") ∧
    (tryLabelFor soup c = "" → tryParentLabel c = "" →
      deriveLabel soup c = tryPrevSibling c) ∧
    (c.prevSibling = some prev → prev.getTextStrips = some st →
      tryPrevSibling c = getTextSep st) ∧
    (c.prevSibling = some prev → prev.getTextStrips = none →
      tryPrevSibling c = prev.rawStripped) ∧
    (tryLabelFor soup c = "" → tryParentLabel c = "" → c.prevSibling = none →
      deriveLabel soup c = "") := by
  refine ⟨rfl, fun hid hfind hwf hne => ?_, fun hfa hpl hwf hne => ?_,
    fun hfa hpb => ?_, fun hprev hst => ?_, fun hprev hst => ?_,
    fun hfa hpb hnone => ?_⟩
  · have hC := getTextC_ne_empty lab hwf hne
    have hS := getTextSep_ne_empty lab hwf hne
    have ht : tryLabelFor soup c = getTextSep lab := by
      unfold tryLabelFor
      rw [hid]
      dsimp only
      rw [hfind]
      dsimp only
      rw [if_neg hC]
    unfold deriveLabel
    rw [ht, if_neg hS]
    exact ⟨rfl, hS⟩
  · have hC := getTextC_ne_empty pl hwf hne
    have hS := getTextSep_ne_empty pl hwf hne
    have hp : tryParentLabel c = getTextSep pl := by
      unfold tryParentLabel
      rw [hpl]
      dsimp only
      rw [if_neg hC]
    unfold deriveLabel
    rw [hfa, if_pos rfl, hp, if_neg hS]
    exact ⟨rfl, hS⟩
  · unfold deriveLabel
    rw [hfa, if_pos rfl, hpb, if_pos rfl]
  · unfold tryPrevSibling
    rw [hprev]
    dsimp only
    rw [hst]
  · unfold tryPrevSibling
    rw [hprev]
    dsimp only
    rw [hst]
  · unfold deriveLabel
    rw [hfa, if_pos rfl, hpb, if_pos rfl]
    unfold tryPrevSibling
    rw [hnone]

/-- Witness for C5: the `label[for=email]` source wins and provides the
space-joined text; the previous-sibling stage returns the sibling text
when asked directly. -/
theorem C5_label_derivation_witness :
    (buildControlInfo soupLabeled nodeWithId).label = deriveLabel soupLabeled nodeWithId ∧
    (deriveLabel soupLabeled nodeWithId = getTextSep ["Email", "address"] ∧
      getTextSep ["Email", "address"] ≠ "") ∧
    tryPrevSibling nodeWithId = getTextSep ["Sib"] :=
  ⟨(C5_label_derivation soupLabeled nodeWithId "email" ["Email", "address"] ["Wrap"]
      ["Sib"] ⟨some ["Sib"], "raw"⟩).1,
   (C5_label_derivation soupLabeled nodeWithId "email" ["Email", "address"] ["Wrap"]
      ["Sib"] ⟨some ["Sib"], "raw"⟩).2.1 rfl rfl
      (by unfold stripsWF; decide) (by decide),
   (C5_label_derivation soupLabeled nodeWithId "email" ["Email", "address"] ["Wrap"]
      ["Sib"] ⟨some ["Sib"], "raw"⟩).2.2.2.2.1 rfl rfl⟩

/-- Claim C8: a navigation timeout is non-fatal — the request behaves
exactly as with a successful navigation (it proceeds to extraction with
whatever loaded), while every other navigation failure terminates the
request with HTTP 500, the fixed error message and the exception text,
performing nothing beyond the launch and the navigation attempt. -/
theorem C8_navigation_timeout_nonfatal (req : Request) (w : World) (url msg : String)
    (hurl : req.url = some url) (hu : url ≠ "") (hd : req.details.getD "" ≠ "") :
    autofill req { w with nav := NavOutcome.timeout } =
      autofill req { w with nav := NavOutcome.ok } ∧
    (autofill req { w with nav := NavOutcome.failure msg }).1 =
      (500, RespBody.errDetails "Failed to navigate to URL" msg) ∧
    (autofill req { w with nav := NavOutcome.failure msg }).2 =
      [Effect.launchBrowser, Effect.navigate url] := by
  have hvalid := not_or.mpr ⟨hu, hd⟩
  refine ⟨?_, ?_, ?_⟩
  · unfold autofill
    rw [hurl]
    dsimp only
    rw [if_neg hvalid, if_neg hvalid]
    rfl
  · unfold autofill
    rw [hurl]
    dsimp only
    rw [if_neg hvalid]
  · unfold autofill
    rw [hurl]
    dsimp only
    rw [if_neg hvalid]

/-- Witness for C8 on the concrete request and world. -/
theorem C8_navigation_timeout_nonfatal_witness :
    autofill reqFx { worldFx with nav := NavOutcome.timeout } =
      autofill reqFx { worldFx with nav := NavOutcome.ok } ∧
    (autofill reqFx { worldFx with nav := NavOutcome.failure "net::DNS" }).1 =
      (500, RespBody.errDetails "Failed to navigate to URL" "net::DNS") ∧
    (autofill reqFx { worldFx with nav := NavOutcome.failure "net::DNS" }).2 =
      [Effect.launchBrowser, Effect.navigate "http://example.com"] :=
  C8_navigation_timeout_nonfatal reqFx worldFx "http://example.com" "net::DNS"
    rfl (by decide) (by decide)

/-- Claim C9: when the model text is not directly parseable, an embedded
brace block is extracted and parsed — if that still fails the response is
HTTP 500 with the parse-failure body echoing the raw text; when no brace
block exists, HTTP 500 with the no-JSON body echoing the raw text. -/
theorem C9_llm_output_parse_errors (req : Request) (w : World) (url aiText b : String)
    (hurl : req.url = some url) (hu : url ≠ "") (hd : req.details.getD "" ≠ "")
    (hnav : ∀ m, w.nav ≠ NavOutcome.failure m)
    (hllm : w.llm = LlmOutcome.ok aiText)
    (hdirect : w.parse aiText = none) :
    (w.braceBlock aiText = some b → w.parse b = none →
      (autofill req w).1 =
        (500, RespBody.errRaw "Could not parse LLM JSON output" aiText)) ∧
    (w.braceBlock aiText = none →
      (autofill req w).1 = (500, RespBody.errRaw "LLM did not return JSON" aiText)) := by
  have hvalid := not_or.mpr ⟨hu, hd⟩
  constructor
  · intro hb hpb
    have hp : parseChain w aiText =
        Except.error (RespBody.errRaw "Could not parse LLM JSON output" aiText) := by
      unfold parseChain
      rw [hdirect]
      dsimp only
      rw [hb]
      dsimp only
      rw [hpb]
    unfold autofill
    rw [hurl]
    dsimp only
    rw [if_neg hvalid]
    cases hn : w.nav with
    | failure m => exact absurd hn (hnav m)
    | ok =>
      rw [hllm]
      dsimp only
      rw [hp]
    | timeout =>
      rw [hllm]
      dsimp only
      rw [hp]
  · intro hb
    have hp : parseChain w aiText =
        Except.error (RespBody.errRaw "LLM did not return JSON" aiText) := by
      unfold parseChain
      rw [hdirect]
      dsimp only
      rw [hb]
    unfold autofill
    rw [hurl]
    dsimp only
    rw [if_neg hvalid]
    cases hn : w.nav with
    | failure m => exact absurd hn (hnav m)
    | ok =>
      rw [hllm]
      dsimp only
      rw [hp]
    | timeout =>
      rw [hllm]
      dsimp only
      rw [hp]

/-- Witness for C9: one world whose model text has an unparseable brace
block, one whose model text has no brace block at all. -/
theorem C9_llm_output_parse_errors_witness :
    (autofill reqFx { worldFx with
      parse := fun _ => none
      braceBlock := fun _ => some "not json" }).1 =
      (500, RespBody.errRaw "Could not parse LLM JSON output" "raw") ∧
    (autofill reqFx { worldFx with
      parse := fun _ => none
      braceBlock := fun _ => none }).1 =
      (500, RespBody.errRaw "LLM did not return JSON" "raw") :=
  ⟨(C9_llm_output_parse_errors reqFx
      { worldFx with
        parse := fun _ => none
        braceBlock := fun _ => some "not json" }
      "http://example.com" "raw" "not json" rfl (by decide) (by decide)
      (by intro m h; simp [worldFx] at h) rfl rfl).1 rfl rfl,
   (C9_llm_output_parse_errors reqFx
      { worldFx with
        parse := fun _ => none
        braceBlock := fun _ => none }
      "http://example.com" "raw" "unused" rfl (by decide) (by decide)
      (by intro m h; simp [worldFx] at h) rfl rfl).2 rfl⟩

/-- Claim C10: a request body lacking `url` or lacking `details` is
answered with HTTP 400 and the fixed error body, and no external effect —
no browser launch, no navigation, no page mutation — takes place. -/
theorem C10_missing_fields_400 (req : Request) (w : World)
    (h : req.url = none ∨ req.details = none) :
    (autofill req w).1 = (400, RespBody.errMsg "url and details are mandatory") ∧
    (autofill req w).2 = [] := by
  cases h with
  | inl h =>
    unfold autofill
    rw [h]
    exact ⟨rfl, rfl⟩
  | inr h =>
    cases hu : req.url with
    | none =>
      unfold autofill
      rw [hu]
      exact ⟨rfl, rfl⟩
    | some url =>
      unfold autofill
      rw [hu]
      dsimp only
      rw [if_pos (Or.inr (by rw [h]; rfl))]
      exact ⟨rfl, rfl⟩

/-- Witness for C10: a request with the `details` field absent. -/
theorem C10_missing_fields_400_witness :
    (autofill reqNoDetails worldFx).1 =
      (400, RespBody.errMsg "url and details are mandatory") ∧
    (autofill reqNoDetails worldFx).2 = [] :=
  C10_missing_fields_400 reqNoDetails worldFx (Or.inr rfl)

end AutofillServer
